import Mathlib

/-!
Verification of the FluFighter epidemic simulator (src/FluFighter.py).

The repository's core is `simulate_infection_with_individuals`: a stochastic
agent-based SIR engine. We embed it shallowly. Python floats become `ℚ`;
`np.random` draws become an abstract `Oracle` supplying every random decision
the code makes (a value in `[0,1)` for each `np.random.rand()` call, a natural
number for each Poisson draw, an index for each `np.random.choice`), indexed
by the day / agent / contact at which the code makes the draw. Claims that
hold "for every random outcome" are quantified over all oracles; any concrete
run of the Python code corresponds to one oracle assignment, so a property
proved for all oracles holds for every run.
-/

namespace FluFighter

/-- A rational in `[0,1)`: the value of one `np.random.rand()` call. -/
abbrev UnitQ := {q : ℚ // 0 ≤ q ∧ q < 1}

/-- Agent status, the `'Susceptible' | 'Infected' | 'Recovered'` strings. -/
inductive Status where
  | susceptible
  | infected
  | recovered
deriving DecidableEq, Repr

/-- One member of `population`: the per-agent dict
`{'status': ..., 'vaccinated': ..., 'position': ...}`. -/
structure Agent where
  status : Status
  vaccinated : Bool
  position : ℚ × ℚ
deriving DecidableEq, Repr

/-- The parameters of `simulate_infection_with_individuals`
(`population_size, initial_infected, R0, recovery_rate, isolation_rate,
days, vaccination_rate, vaccine_efficacy`). -/
structure Params where
  population_size : ℕ
  initial_infected : ℕ
  r0 : ℚ
  recovery_rate : ℚ
  isolation_rate : ℚ
  days : ℕ
  vaccination_rate : ℚ
  vaccine_efficacy : ℚ

/-- The domain constraints of the spec's data model (§3). -/
def Params.Valid (pr : Params) : Prop :=
  0 < pr.population_size ∧
  pr.initial_infected ≤ pr.population_size ∧
  0 < pr.r0 ∧
  0 ≤ pr.recovery_rate ∧ pr.recovery_rate ≤ 1 ∧
  0 ≤ pr.isolation_rate ∧ pr.isolation_rate ≤ 1 ∧
  0 < pr.days ∧
  0 ≤ pr.vaccination_rate ∧ pr.vaccination_rate ≤ 1 ∧
  0 ≤ pr.vaccine_efficacy ∧ pr.vaccine_efficacy ≤ 1

instance (pr : Params) : Decidable pr.Valid := by
  unfold Params.Valid; infer_instance

/-- Every random decision the engine makes, addressed by where the code
draws it. `vaccinatedDraw i` and `positionDraw i` feed agent `i`'s
initialization; `contactsDraw d i` is the Poisson sample for infected agent
`i` on day `d`; `targetDraw`, `isolationDraw`, `infectionDraw` feed contact
`k` of agent `i` on day `d`; `recoveryDraw d i` is agent `i`'s recovery roll
on day `d`. -/
structure Oracle where
  vaccinatedDraw : ℕ → UnitQ
  positionDraw : ℕ → UnitQ × UnitQ
  contactsDraw : ℕ → ℕ → ℕ
  targetDraw : ℕ → ℕ → ℕ → ℕ
  isolationDraw : ℕ → ℕ → ℕ → UnitQ
  infectionDraw : ℕ → ℕ → ℕ → UnitQ
  recoveryDraw : ℕ → ℕ → UnitQ

/-- Lines 22-32: agent `i` starts `Infected` iff `i < initial_infected`,
is vaccinated iff `rand() < vaccination_rate`, and gets a random position. -/
def initAgent (pr : Params) (o : Oracle) (i : ℕ) : Agent :=
  { status := if i < pr.initial_infected then Status.infected else Status.susceptible
    vaccinated := decide ((o.vaccinatedDraw i).val < pr.vaccination_rate)
    position := ((o.positionDraw i).1.val, (o.positionDraw i).2.val) }

/-- Lines 21-32: the initial `population` list. -/
def initPopulation (pr : Params) (o : Oracle) : List Agent :=
  (List.range pr.population_size).map (initAgent pr o)

/-- Line 86/88: `effective_R0 = R0 * vaccine_efficacy` if the target is
vaccinated, else `R0`. -/
def effectiveR0 (r0 vaccine_efficacy : ℚ) (vaccinated : Bool) : ℚ :=
  if vaccinated then r0 * vaccine_efficacy else r0

/-- Lines 80-90: one contact attempt of infected agent `src` on day `day`.
`np.random.choice(population)` picks a uniformly random member; we realize
the drawn index as `targetDraw day src k % pop.length`. If the target is
`Susceptible`, the contact is effective with `rand() < 1 - isolation_rate`,
and then infects with `rand() < effective_R0 / R0`. -/
def targetIndex (o : Oracle) (day src k n : ℕ) : ℕ :=
  o.targetDraw day src k % n

def contactAttempt (pr : Params) (day src k : ℕ) (o : Oracle)
    (pop : List Agent) : List Agent :=
  match pop.get? (targetIndex o day src k pop.length) with
  | none => pop
  | some target =>
    if target.status = Status.susceptible then
      if (o.isolationDraw day src k).val < 1 - pr.isolation_rate then
        if (o.infectionDraw day src k).val <
            effectiveR0 pr.r0 pr.vaccine_efficacy target.vaccinated / pr.r0 then
          pop.set (targetIndex o day src k pop.length) { target with status := Status.infected }
        else pop
      else pop
    else pop

/-- Lines 78-90: infected agent `src` makes `contacts = np.random.poisson(R0)`
sequential contact attempts. The oracle natural `contactsDraw` models the
Poisson sample on the domain `R0 ≥ 0` where `np.random.poisson` is total;
for `R0 < 0` the numpy call raises `ValueError`, a failure this model does
not represent. -/
def contactsFor (pr : Params) (day src : ℕ) (o : Oracle)
    (pop : List Agent) : List Agent :=
  (List.range (o.contactsDraw day src)).foldl
    (fun acc k => contactAttempt pr day src k o acc) pop

/-- Lines 75-90: the infection-spread loop. Python iterates `for p in
population` and tests `p['status'] == 'Infected'` when the loop reaches `p`,
so agents infected earlier the same day also spread; we iterate over indices
and test the current status in the accumulated state. -/
def contactPhase (pr : Params) (day : ℕ) (o : Oracle)
    (pop : List Agent) : List Agent :=
  (List.range pop.length).foldl
    (fun acc i =>
      match acc.get? i with
      | none => acc
      | some a => if a.status = Status.infected then contactsFor pr day i o acc else acc)
    pop

/-- Lines 94-96: one agent's recovery roll (only `Infected` agents roll). -/
def recoverAgent (pr : Params) (day i : ℕ) (o : Oracle) (a : Agent) : Agent :=
  if a.status = Status.infected then
    if (o.recoveryDraw day i).val < pr.recovery_rate then
      { a with status := Status.recovered }
    else a
  else a

/-- Lines 93-96: the recovery loop over the whole population, agent `i`
rolling `recoveryDraw day i`. -/
def recoveryPhase (pr : Params) (day : ℕ) (o : Oracle) : ℕ → List Agent → List Agent
  | _, [] => []
  | i, a :: rest => recoverAgent pr day i o a :: recoveryPhase pr day o (i + 1) rest

/-- Lines 74-96: one simulated day (contact phase then recovery phase). -/
def dayStep (pr : Params) (o : Oracle) (day : ℕ) (pop : List Agent) : List Agent :=
  recoveryPhase pr day o 0 (contactPhase pr day o pop)

/-- The population at the start of day `d` (what lines 46-69 record for
day `d`): day 0 is the initial population; no step runs after the last
recording (line 71's `break`). -/
def popAtDay (pr : Params) (o : Oracle) : ℕ → List Agent
  | 0 => initPopulation pr o
  | d + 1 => dayStep pr o d (popAtDay pr o d)

/-- Lines 47-52: count of agents with a given status and vaccination flag. -/
def countClass (pop : List Agent) (s : Status) (v : Bool) : ℕ :=
  pop.countP (fun a => a.status == s && a.vaccinated == v)

/-- Count of agents with a given status (both vaccination classes). -/
def countStatus (pop : List Agent) (s : Status) : ℕ :=
  pop.countP (fun a => a.status == s)

/-- Lines 35-59: one of the six per-class day series. -/
def classSeries (pr : Params) (o : Oracle) (s : Status) (v : Bool) : List ℕ :=
  (List.range (pr.days + 1)).map (fun d => countClass (popAtDay pr o d) s v)

/-- Line 99: `total_susceptible = susceptible_vaccinated + susceptible_unvaccinated`
(elementwise numpy addition). -/
def total_susceptible (pr : Params) (o : Oracle) : List ℕ :=
  List.zipWith (· + ·) (classSeries pr o Status.susceptible true)
    (classSeries pr o Status.susceptible false)

/-- Line 100: elementwise sum of the two infected series. -/
def total_infected (pr : Params) (o : Oracle) : List ℕ :=
  List.zipWith (· + ·) (classSeries pr o Status.infected true)
    (classSeries pr o Status.infected false)

/-- Line 101: elementwise sum of the two recovered series. -/
def total_recovered (pr : Params) (o : Oracle) : List ℕ :=
  List.zipWith (· + ·) (classSeries pr o Status.recovered true)
    (classSeries pr o Status.recovered false)

/-- Lines 61-69: the per-day snapshots (`population_history`). Each snapshot
copies every agent's status, vaccinated flag and position by value, which in
the embedding is the agent value itself. -/
def population_history (pr : Params) (o : Oracle) : List (List Agent) :=
  (List.range (pr.days + 1)).map (popAtDay pr o)

/-- Lines 19-103: the whole engine, returning
`(total_susceptible, total_infected, total_recovered, population_history)`. -/
def simulate_infection_with_individuals (pr : Params) (o : Oracle) :
    List ℕ × List ℕ × List ℕ × List (List Agent) :=
  (total_susceptible pr o, total_infected pr o, total_recovered pr o,
    population_history pr o)

/-! ### Length preservation -/

theorem contactAttempt_length (pr : Params) (day src k : ℕ) (o : Oracle)
    (pop : List Agent) : (contactAttempt pr day src k o pop).length = pop.length := by
  unfold contactAttempt
  split
  · rfl
  · split
    · split
      · split
        · exact List.length_set ..
        · rfl
      · rfl
    · rfl

theorem contactsFor_length (pr : Params) (day src : ℕ) (o : Oracle)
    (pop : List Agent) : (contactsFor pr day src o pop).length = pop.length := by
  unfold contactsFor
  generalize List.range (o.contactsDraw day src) = l
  induction l generalizing pop with
  | nil => rfl
  | cons k l ih =>
    simp only [List.foldl_cons]
    rw [ih, contactAttempt_length]

theorem contactPhase_length (pr : Params) (day : ℕ) (o : Oracle)
    (pop : List Agent) : (contactPhase pr day o pop).length = pop.length := by
  unfold contactPhase
  generalize List.range pop.length = l
  induction l generalizing pop with
  | nil => rfl
  | cons i l ih =>
    simp only [List.foldl_cons]
    rw [ih]
    cases (pop.get? i) with
    | none => rfl
    | some a =>
      simp only
      split
      · exact contactsFor_length ..
      · rfl

theorem recoveryPhase_length (pr : Params) (day : ℕ) (o : Oracle) (i : ℕ)
    (pop : List Agent) : (recoveryPhase pr day o i pop).length = pop.length := by
  induction pop generalizing i with
  | nil => rfl
  | cons a rest ih => simp [recoveryPhase, ih]

theorem dayStep_length (pr : Params) (o : Oracle) (day : ℕ) (pop : List Agent) :
    (dayStep pr o day pop).length = pop.length := by
  unfold dayStep
  rw [recoveryPhase_length, contactPhase_length]

theorem initPopulation_length (pr : Params) (o : Oracle) :
    (initPopulation pr o).length = pr.population_size := by
  simp [initPopulation]

theorem popAtDay_length (pr : Params) (o : Oracle) (d : ℕ) :
    (popAtDay pr o d).length = pr.population_size := by
  induction d with
  | zero => exact initPopulation_length pr o
  | succ d ih => rw [popAtDay, dayStep_length, ih]

/-! ### One-way progression of agent state -/

/-- Position of a status on the one-way S → I → R progression. -/
def statusRank : Status → ℕ
  | Status.susceptible => 0
  | Status.infected => 1
  | Status.recovered => 2

/-- What any engine step may do to one agent: the vaccinated flag and the
position are untouched and the status only moves forward. -/
def Progresses (a b : Agent) : Prop :=
  b.vaccinated = a.vaccinated ∧ b.position = a.position ∧
    statusRank a.status ≤ statusRank b.status

theorem progresses_refl (a : Agent) : Progresses a a :=
  ⟨Eq.refl _, Eq.refl _, Nat.le_refl _⟩

theorem progresses_trans {a b c : Agent} (h1 : Progresses a b)
    (h2 : Progresses b c) : Progresses a c :=
  ⟨h2.1.trans h1.1, h2.2.1.trans h1.2.1, h1.2.2.trans h2.2.2⟩

theorem forall2_refl {P : Agent → Agent → Prop} (hrefl : ∀ a, P a a)
    (l : List Agent) : List.Forall₂ P l l :=
  List.forall₂_same.2 (fun x _ => hrefl x)

theorem forall2_trans {P : Agent → Agent → Prop}
    (htr : ∀ a b c, P a b → P b c → P a c) :
    ∀ {l1 l2 l3 : List Agent}, List.Forall₂ P l1 l2 → List.Forall₂ P l2 l3 →
      List.Forall₂ P l1 l3 := by
  intro l1 l2 l3 h12 h23
  induction h12 generalizing l3 with
  | nil => cases h23; exact List.Forall₂.nil
  | cons hab _ ih =>
    cases h23 with
    | cons hbc h23 => exact List.Forall₂.cons (htr _ _ _ hab hbc) (ih h23)

theorem forall2_prog_trans {l1 l2 l3 : List Agent}
    (h12 : List.Forall₂ Progresses l1 l2) (h23 : List.Forall₂ Progresses l2 l3) :
    List.Forall₂ Progresses l1 l3 :=
  forall2_trans
    (fun (a b c : Agent) (h1 : Progresses a b) (h2 : Progresses b c) =>
      progresses_trans h1 h2) h12 h23

theorem forall2_set {P : Agent → Agent → Prop} (hrefl : ∀ a, P a a) :
    ∀ {pop : List Agent} {t : ℕ} {a b : Agent}, pop.get? t = some a → P a b →
      List.Forall₂ P pop (pop.set t b) := by
  intro pop
  induction pop with
  | nil => intro t a b h; simp at h
  | cons x rest ih =>
    intro t a b h hP
    cases t with
    | zero =>
      rw [List.get?_cons_zero, Option.some_inj] at h
      subst h
      exact List.Forall₂.cons hP (forall2_refl hrefl rest)
    | succ t =>
      rw [List.get?_cons_succ] at h
      exact List.Forall₂.cons (hrefl x) (ih h hP)

theorem forall2_foldl {P : Agent → Agent → Prop} (hrefl : ∀ a, P a a)
    (htr : ∀ a b c, P a b → P b c → P a c)
    {f : List Agent → ℕ → List Agent}
    (hf : ∀ acc i, List.Forall₂ P acc (f acc i)) :
    ∀ (l : List ℕ) (pop : List Agent), List.Forall₂ P pop (List.foldl f pop l) := by
  intro l
  induction l with
  | nil => intro pop; exact forall2_refl hrefl pop
  | cons i l ih =>
    intro pop
    rw [List.foldl_cons]
    exact forall2_trans htr (hf pop i) (ih (f pop i))

theorem contactAttempt_forall2 (pr : Params) (day src k : ℕ) (o : Oracle)
    (pop : List Agent) :
    List.Forall₂ Progresses pop (contactAttempt pr day src k o pop) := by
  unfold contactAttempt
  split
  · exact forall2_refl progresses_refl pop
  next target h =>
    split
    next hs =>
      split
      · split
        · refine forall2_set progresses_refl h ⟨Eq.refl _, Eq.refl _, ?_⟩
          rw [hs]
          exact Nat.zero_le _
        · exact forall2_refl progresses_refl pop
      · exact forall2_refl progresses_refl pop
    · exact forall2_refl progresses_refl pop

theorem contactsFor_forall2 (pr : Params) (day src : ℕ) (o : Oracle)
    (pop : List Agent) :
    List.Forall₂ Progresses pop (contactsFor pr day src o pop) :=
  forall2_foldl progresses_refl (fun _ _ _ h1 h2 => progresses_trans h1 h2)
    (fun acc k => contactAttempt_forall2 pr day src k o acc) _ pop

theorem contactPhase_forall2 (pr : Params) (day : ℕ) (o : Oracle)
    (pop : List Agent) :
    List.Forall₂ Progresses pop (contactPhase pr day o pop) := by
  unfold contactPhase
  refine forall2_foldl progresses_refl (fun _ _ _ h1 h2 => progresses_trans h1 h2) ?_ _ pop
  intro acc i
  cases acc.get? i with
  | none => exact forall2_refl progresses_refl acc
  | some a =>
    simp only
    split
    · exact contactsFor_forall2 pr day i o acc
    · exact forall2_refl progresses_refl acc

theorem recoverAgent_progresses (pr : Params) (day i : ℕ) (o : Oracle)
    (a : Agent) : Progresses a (recoverAgent pr day i o a) := by
  unfold recoverAgent
  split
  next hs =>
    split
    · exact ⟨Eq.refl _, Eq.refl _, by rw [hs]; exact Nat.le_succ _⟩
    · exact progresses_refl a
  · exact progresses_refl a

theorem recoveryPhase_forall2 (pr : Params) (day : ℕ) (o : Oracle) :
    ∀ (i : ℕ) (pop : List Agent),
      List.Forall₂ Progresses pop (recoveryPhase pr day o i pop) := by
  intro i pop
  induction pop generalizing i with
  | nil => exact List.Forall₂.nil
  | cons a rest ih =>
    exact List.Forall₂.cons (recoverAgent_progresses pr day i o a) (ih (i + 1))

theorem dayStep_forall2 (pr : Params) (o : Oracle) (day : ℕ) (pop : List Agent) :
    List.Forall₂ Progresses pop (dayStep pr o day pop) :=
  forall2_prog_trans (contactPhase_forall2 pr day o pop)
    (recoveryPhase_forall2 pr day o 0 (contactPhase pr day o pop))

theorem popAtDay_forall2_succ (pr : Params) (o : Oracle) (d : ℕ) :
    List.Forall₂ Progresses (popAtDay pr o d) (popAtDay pr o (d + 1)) :=
  dayStep_forall2 pr o d (popAtDay pr o d)

theorem popAtDay_forall2_le (pr : Params) (o : Oracle) {d e : ℕ} (h : d ≤ e) :
    List.Forall₂ Progresses (popAtDay pr o d) (popAtDay pr o e) := by
  induction e with
  | zero =>
    rw [Nat.le_zero.1 h]
    exact forall2_refl progresses_refl _
  | succ e ih =>
    rcases Nat.lt_or_ge d (e + 1) with hlt | hge
    · exact forall2_prog_trans (ih (Nat.lt_succ_iff.1 hlt))
        (popAtDay_forall2_succ pr o e)
    · rw [Nat.le_antisymm h hge]
      exact forall2_refl progresses_refl _

/-! ### Counting lemmas -/

theorem countP_le_of_forall2 {P : Agent → Agent → Prop} {p q : Agent → Bool}
    (hpq : ∀ a b, P a b → p a = true → q b = true) :
    ∀ {l l' : List Agent}, List.Forall₂ P l l' → l.countP p ≤ l'.countP q := by
  intro l l' h
  induction h with
  | nil => exact Nat.le_refl _
  | @cons a b l1 l2 hab _ ih =>
    rw [List.countP_cons, List.countP_cons]
    by_cases hp : p a = true
    · rw [if_pos hp, if_pos (hpq _ _ hab hp)]
      omega
    · rw [if_neg hp]
      split <;> omega

theorem countP_ge_of_forall2 {P : Agent → Agent → Prop} {p q : Agent → Bool}
    (hqp : ∀ a b, P a b → q b = true → p a = true) :
    ∀ {l l' : List Agent}, List.Forall₂ P l l' → l'.countP q ≤ l.countP p := by
  intro l l' h
  induction h with
  | nil => exact Nat.le_refl _
  | @cons a b l1 l2 hab _ ih =>
    rw [List.countP_cons, List.countP_cons]
    by_cases hq : q b = true
    · rw [if_pos hq, if_pos (hqp _ _ hab hq)]
      omega
    · rw [if_neg hq]
      split <;> omega

/-- The two vaccination classes of a status partition its total count
(line 99-101's elementwise sums are per-status totals). -/
theorem countClass_add_countClass (pop : List Agent) (s : Status) :
    countClass pop s true + countClass pop s false = countStatus pop s := by
  induction pop with
  | nil => rfl
  | cons a rest ih =>
    unfold countClass countStatus at ih ⊢
    rw [List.countP_cons, List.countP_cons, List.countP_cons]
    by_cases hs : (a.status == s) = true
    · by_cases hv : a.vaccinated = true
      · rw [if_pos (by simp [hs, hv]), if_neg (by simp [hs, hv]), if_pos hs]
        omega
      · rw [if_neg (by simp [hs, hv]), if_pos (by simp [hs]; simp at hv; exact hv),
          if_pos hs]
        omega
    · rw [if_neg (by simp [hs]), if_neg (by simp [hs]), if_neg hs]
      omega

/-- Every agent has exactly one of the three statuses, so the three status
counts partition the population. -/
theorem countStatus_partition (pop : List Agent) :
    countStatus pop Status.susceptible + countStatus pop Status.infected +
      countStatus pop Status.recovered = pop.length := by
  induction pop with
  | nil => rfl
  | cons a rest ih =>
    unfold countStatus at ih ⊢
    rw [List.countP_cons, List.countP_cons, List.countP_cons]
    cases a.status <;> simp <;> omega

theorem countStatus_le_length (pop : List Agent) (s : Status) :
    countStatus pop s ≤ pop.length :=
  List.countP_le_length _

/-- The first `initial_infected` agents (by creation order) start `Infected`,
the rest `Susceptible`. -/
theorem countStatus_init_infected (pr : Params) (o : Oracle) :
    countStatus (initPopulation pr o) Status.infected =
      min pr.initial_infected pr.population_size := by
  unfold countStatus initPopulation
  rw [List.countP_map]
  have : ∀ n, List.countP ((fun a => a.status == Status.infected) ∘ initAgent pr o)
      (List.range n) = min pr.initial_infected n := by
    intro n
    induction n with
    | zero => simp
    | succ n ih =>
      rw [List.range_succ, List.countP_append, ih]
      simp only [List.countP_cons, List.countP_nil, Function.comp_apply, initAgent]
      rcases hn : decide (n < pr.initial_infected) with _ | _

      · rw [if_neg (by simp_all)]
        simp only [decide_eq_false_iff_not, Nat.not_lt] at hn
        omega
      · rw [if_pos (by simp_all)]
        simp only [decide_eq_true_eq] at hn
        omega
  exact this pr.population_size

/-- Element `d` of a per-class series is the class count at day `d`. -/
theorem classSeries_getD (pr : Params) (o : Oracle) (s : Status) (v : Bool)
    {d : ℕ} (hd : d < pr.days + 1) :
    (classSeries pr o s v).getD d 0 = countClass (popAtDay pr o d) s v := by
  unfold classSeries
  rw [List.getD_eq_get?, List.get?_map, List.get?_range hd]
  rfl

theorem classSeries_length (pr : Params) (o : Oracle) (s : Status) (v : Bool) :
    (classSeries pr o s v).length = pr.days + 1 := by
  simp [classSeries]

theorem zipWith_add_map (l : List ℕ) (f g : ℕ → ℕ) :
    List.zipWith (· + ·) (l.map f) (l.map g) = l.map (fun d => f d + g d) := by
  induction l with
  | nil => rfl
  | cons a l ih => simp [ih]

/-- Line 99 in closed form: the total susceptible series is the per-day
status count. -/
theorem total_susceptible_eq (pr : Params) (o : Oracle) :
    total_susceptible pr o =
      (List.range (pr.days + 1)).map
        (fun d => countStatus (popAtDay pr o d) Status.susceptible) := by
  unfold total_susceptible classSeries
  rw [zipWith_add_map]
  simp only [countClass_add_countClass]

/-- Line 100 in closed form: the total infected series is the per-day
status count. -/
theorem total_infected_eq (pr : Params) (o : Oracle) :
    total_infected pr o =
      (List.range (pr.days + 1)).map
        (fun d => countStatus (popAtDay pr o d) Status.infected) := by
  unfold total_infected classSeries
  rw [zipWith_add_map]
  simp only [countClass_add_countClass]

/-- Line 101 in closed form: the total recovered series is the per-day
status count. -/
theorem total_recovered_eq (pr : Params) (o : Oracle) :
    total_recovered pr o =
      (List.range (pr.days + 1)).map
        (fun d => countStatus (popAtDay pr o d) Status.recovered) := by
  unfold total_recovered classSeries
  rw [zipWith_add_map]
  simp only [countClass_add_countClass]

theorem getD_map_range {α : Type} {dflt : α} {f : ℕ → α} {n d : ℕ} (hd : d < n) :
    ((List.range n).map f).getD d dflt = f d := by
  rw [List.getD_eq_get?, List.get?_map, List.get?_range hd]
  rfl

theorem total_susceptible_getD (pr : Params) (o : Oracle) {d : ℕ}
    (hd : d < pr.days + 1) :
    (total_susceptible pr o).getD d 0 =
      countStatus (popAtDay pr o d) Status.susceptible := by
  rw [total_susceptible_eq, getD_map_range hd]

theorem total_infected_getD (pr : Params) (o : Oracle) {d : ℕ}
    (hd : d < pr.days + 1) :
    (total_infected pr o).getD d 0 =
      countStatus (popAtDay pr o d) Status.infected := by
  rw [total_infected_eq, getD_map_range hd]

theorem total_recovered_getD (pr : Params) (o : Oracle) {d : ℕ}
    (hd : d < pr.days + 1) :
    (total_recovered pr o).getD d 0 =
      countStatus (popAtDay pr o d) Status.recovered := by
  rw [total_recovered_eq, getD_map_range hd]

theorem total_susceptible_length (pr : Params) (o : Oracle) :
    (total_susceptible pr o).length = pr.days + 1 := by
  rw [total_susceptible_eq]; simp

theorem total_infected_length (pr : Params) (o : Oracle) :
    (total_infected pr o).length = pr.days + 1 := by
  rw [total_infected_eq]; simp

theorem total_recovered_length (pr : Params) (o : Oracle) :
    (total_recovered pr o).length = pr.days + 1 := by
  rw [total_recovered_eq]; simp

/-! ### Concrete fixtures used by the witnesses -/

def halfQ : UnitQ := ⟨1/2, by norm_num⟩

/-- A concrete random outcome: every uniform draw is `1/2`, every Poisson
draw is `1`, every target draw is index `1`. -/
def constOracle : Oracle where
  vaccinatedDraw := fun _ => halfQ
  positionDraw := fun _ => (halfQ, halfQ)
  contactsDraw := fun _ _ => 1
  targetDraw := fun _ _ _ => 1
  isolationDraw := fun _ _ _ => halfQ
  infectionDraw := fun _ _ _ => halfQ
  recoveryDraw := fun _ _ => halfQ

def pr1 : Params :=
  { population_size := 2, initial_infected := 1, r0 := 2, recovery_rate := 1/2
    isolation_rate := 0, days := 1, vaccination_rate := 1/2, vaccine_efficacy := 1/2 }

def agentI0 : Agent := ⟨Status.infected, false, (1/2, 1/2)⟩

def agentS1 : Agent := ⟨Status.susceptible, false, (1/2, 1/2)⟩

def pop1 : List Agent := [agentI0, agentS1]

/-! ### C1 -/

/-- C1: in the contact phase, a contact whose target is Susceptible is
effective exactly when the isolation roll passes `rand < 1 - isolation_rate`,
and an effective contact infects exactly when the infection roll passes the
threshold `effective_R0 / R0`, which (given `r0 > 0`) equals
`vaccine_efficacy` for a vaccinated target and `1` for an unvaccinated
target. -/
theorem contact_infection_probability (pr : Params) (hr0 : 0 < pr.r0)
    (day src k : ℕ) (o : Oracle) (pop : List Agent) (target : Agent)
    (ht : pop.get? (targetIndex o day src k pop.length) = some target)
    (hs : target.status = Status.susceptible) :
    effectiveR0 pr.r0 pr.vaccine_efficacy target.vaccinated / pr.r0 =
      (if target.vaccinated then pr.vaccine_efficacy else 1) ∧
    contactAttempt pr day src k o pop =
      (if (o.isolationDraw day src k).val < 1 - pr.isolation_rate ∧
          (o.infectionDraw day src k).val <
            (if target.vaccinated then pr.vaccine_efficacy else 1)
        then pop.set (targetIndex o day src k pop.length)
          { target with status := Status.infected }
        else pop) := by
  have hratio : effectiveR0 pr.r0 pr.vaccine_efficacy target.vaccinated / pr.r0 =
      (if target.vaccinated then pr.vaccine_efficacy else 1) := by
    unfold effectiveR0
    cases hv : target.vaccinated
    · simp only [Bool.false_eq_true, if_false]
      exact div_self (ne_of_gt hr0)
    · simp only [if_true]
      rw [mul_comm, mul_div_assoc, div_self (ne_of_gt hr0), mul_one]
  refine ⟨hratio, ?_⟩
  unfold contactAttempt
  simp only [ht]
  rw [if_pos hs, hratio]
  by_cases hiso : (o.isolationDraw day src k).val < 1 - pr.isolation_rate
  · rw [if_pos hiso]
    by_cases hinf : (o.infectionDraw day src k).val <
        (if target.vaccinated then pr.vaccine_efficacy else 1)
    · rw [if_pos hinf, if_pos ⟨hiso, hinf⟩]
    · rw [if_neg hinf, if_neg (fun h => hinf h.2)]
  · rw [if_neg hiso, if_neg (fun h => hiso h.1)]

theorem contact_infection_probability_witness :
    0 < pr1.r0 ∧
    pop1.get? (targetIndex constOracle 0 0 0 pop1.length) = some agentS1 ∧
    agentS1.status = Status.susceptible ∧
    (effectiveR0 pr1.r0 pr1.vaccine_efficacy agentS1.vaccinated / pr1.r0 =
      (if agentS1.vaccinated then pr1.vaccine_efficacy else 1) ∧
    contactAttempt pr1 0 0 0 constOracle pop1 =
      (if (constOracle.isolationDraw 0 0 0).val < 1 - pr1.isolation_rate ∧
          (constOracle.infectionDraw 0 0 0).val <
            (if agentS1.vaccinated then pr1.vaccine_efficacy else 1)
        then pop1.set (targetIndex constOracle 0 0 0 pop1.length)
          { agentS1 with status := Status.infected }
        else pop1)) :=
  ⟨by norm_num [pr1], rfl, rfl,
    contact_infection_probability pr1 (by norm_num [pr1]) 0 0 0 constOracle pop1
      agentS1 rfl rfl⟩

/-! ### C2 -/

/-- C2: at every recorded day the three returned totals sum to the
population size: the population list always has `population_size` members
and each member has exactly one of the three statuses. -/
theorem conservation (pr : Params) (o : Oracle)
    (hpr : 0 < pr.population_size ∧ pr.initial_infected ≤ pr.population_size)
    (d : ℕ) (hd : d ≤ pr.days) :
    (total_susceptible pr o).getD d 0 + (total_infected pr o).getD d 0 +
      (total_recovered pr o).getD d 0 = pr.population_size := by
  have hd1 : d < pr.days + 1 := Nat.lt_succ_of_le hd
  rw [total_susceptible_getD pr o hd1, total_infected_getD pr o hd1,
    total_recovered_getD pr o hd1, countStatus_partition, popAtDay_length]

theorem conservation_witness :
    (0 < pr1.population_size ∧ pr1.initial_infected ≤ pr1.population_size) ∧
    1 ≤ pr1.days ∧
    (total_susceptible pr1 constOracle).getD 1 0 +
      (total_infected pr1 constOracle).getD 1 0 +
      (total_recovered pr1 constOracle).getD 1 0 = pr1.population_size :=
  ⟨by decide, by decide, conservation pr1 constOracle (by decide) 1 (by decide)⟩

/-! ### C3 -/

/-- C3: between any two consecutive days, an agent's status never regresses:
its rank on the S → I → R progression is non-decreasing, so
Recovered → Infected, Infected → Susceptible and Recovered → Susceptible
never happen, for any parameters and any random outcome. -/
theorem no_regression (pr : Params) (o : Oracle) (d i : ℕ) (a b : Agent)
    (ha : (popAtDay pr o d).get? i = some a)
    (hb : (popAtDay pr o (d + 1)).get? i = some b) :
    statusRank a.status ≤ statusRank b.status ∧
    ¬(a.status = Status.recovered ∧ b.status = Status.infected) ∧
    ¬(a.status = Status.infected ∧ b.status = Status.susceptible) ∧
    ¬(a.status = Status.recovered ∧ b.status = Status.susceptible) := by
  have h2 := popAtDay_forall2_succ pr o d
  rw [List.forall₂_iff_get] at h2
  obtain ⟨hlen, hget⟩ := h2
  obtain ⟨hia, ha'⟩ := List.get?_eq_some.1 ha
  obtain ⟨hib, hb'⟩ := List.get?_eq_some.1 hb
  have hp := hget i hia hib
  rw [ha', hb'] at hp
  have hrank := hp.2.2
  refine ⟨hrank, ?_, ?_, ?_⟩ <;> rintro ⟨h1, h2⟩ <;> rw [h1, h2] at hrank <;>
    exact absurd hrank (by decide)

/-- With the engine's own parameters but `isolation_rate = 1` and
`recovery_rate = 0` one full day leaves the population untouched; used by
the witnesses below and by the full-isolation claim. -/
theorem contactAttempt_isolated (pr : Params) (hiso : pr.isolation_rate = 1)
    (day src k : ℕ) (o : Oracle) (pop : List Agent) :
    contactAttempt pr day src k o pop = pop := by
  unfold contactAttempt
  split
  · rfl
  · split
    · rw [if_neg]
      intro h
      rw [hiso] at h
      have h0 := (o.isolationDraw day src k).2.1
      rw [sub_self] at h
      exact absurd h (not_lt.2 h0)
    · rfl

theorem contactsFor_isolated (pr : Params) (hiso : pr.isolation_rate = 1)
    (day src : ℕ) (o : Oracle) (pop : List Agent) :
    contactsFor pr day src o pop = pop := by
  unfold contactsFor
  generalize List.range (o.contactsDraw day src) = l
  induction l generalizing pop with
  | nil => rfl
  | cons k l ih => rw [List.foldl_cons, contactAttempt_isolated pr hiso, ih]

theorem contactPhase_isolated (pr : Params) (hiso : pr.isolation_rate = 1)
    (day : ℕ) (o : Oracle) (pop : List Agent) :
    contactPhase pr day o pop = pop := by
  unfold contactPhase
  generalize List.range pop.length = l
  induction l generalizing pop with
  | nil => rfl
  | cons i l ih =>
    rw [List.foldl_cons]
    have hstep : (match pop.get? i with
        | none => pop
        | some a => if a.status = Status.infected then contactsFor pr day i o pop
            else pop) = pop := by
      cases pop.get? i with
      | none => rfl
      | some a =>
        simp only
        split
        · exact contactsFor_isolated pr hiso day i o pop
        · rfl
    rw [hstep, ih]

theorem recoverAgent_zero (pr : Params) (hrec : pr.recovery_rate = 0)
    (day i : ℕ) (o : Oracle) (a : Agent) : recoverAgent pr day i o a = a := by
  unfold recoverAgent
  split
  · rw [if_neg]
    rw [hrec]
    exact not_lt.2 (o.recoveryDraw day i).2.1
  · rfl

theorem recoveryPhase_zero (pr : Params) (hrec : pr.recovery_rate = 0)
    (day : ℕ) (o : Oracle) :
    ∀ (i : ℕ) (pop : List Agent), recoveryPhase pr day o i pop = pop := by
  intro i pop
  induction pop generalizing i with
  | nil => rfl
  | cons a rest ih =>
    rw [recoveryPhase, recoverAgent_zero pr hrec, ih]

/-- Witness parameters for the no-regression claim: full isolation and zero
recovery make day 1 computable in closed form. -/
def pr3 : Params :=
  { population_size := 2, initial_infected := 1, r0 := 2, recovery_rate := 0
    isolation_rate := 1, days := 1, vaccination_rate := 0, vaccine_efficacy := 1 }

theorem initAgent_pr3_zero : initAgent pr3 constOracle 0 = agentI0 := by
  unfold initAgent pr3 constOracle agentI0 halfQ
  norm_num

theorem popAtDay_pr3_one :
    popAtDay pr3 constOracle 1 = initPopulation pr3 constOracle := by
  show dayStep pr3 constOracle 0 (popAtDay pr3 constOracle 0) = _
  unfold dayStep
  rw [contactPhase_isolated pr3 rfl, recoveryPhase_zero pr3 rfl]
  rfl

theorem get0_init_pr3 :
    (popAtDay pr3 constOracle 0).get? 0 = some agentI0 := by
  show (initPopulation pr3 constOracle).get? 0 = some agentI0
  rw [initPopulation]
  show some (initAgent pr3 constOracle 0) = some agentI0
  rw [initAgent_pr3_zero]

theorem no_regression_witness :
    (popAtDay pr3 constOracle 0).get? 0 = some agentI0 ∧
    (popAtDay pr3 constOracle (0 + 1)).get? 0 = some agentI0 ∧
    (statusRank agentI0.status ≤ statusRank agentI0.status ∧
      ¬(agentI0.status = Status.recovered ∧ agentI0.status = Status.infected) ∧
      ¬(agentI0.status = Status.infected ∧ agentI0.status = Status.susceptible) ∧
      ¬(agentI0.status = Status.recovered ∧ agentI0.status = Status.susceptible)) :=
  ⟨get0_init_pr3, by rw [Nat.zero_add, popAtDay_pr3_one]; exact get0_init_pr3,
    no_regression pr3 constOracle 0 0 agentI0 agentI0 get0_init_pr3
      (by rw [Nat.zero_add, popAtDay_pr3_one]; exact get0_init_pr3)⟩

/-! ### C4 -/

/-- C4: for every valid parameter record the engine returns three series of
length `days + 1` and a history of `days + 1` snapshots, each of
`population_size` agent records. -/
theorem output_lengths (pr : Params) (o : Oracle) (hv : pr.Valid) :
    (total_susceptible pr o).length = pr.days + 1 ∧
    (total_infected pr o).length = pr.days + 1 ∧
    (total_recovered pr o).length = pr.days + 1 ∧
    (population_history pr o).length = pr.days + 1 ∧
    ∀ snap ∈ population_history pr o, snap.length = pr.population_size := by
  refine ⟨total_susceptible_length pr o, total_infected_length pr o,
    total_recovered_length pr o, by simp [population_history], ?_⟩
  intro snap hsnap
  obtain ⟨d, _, rfl⟩ := List.mem_map.1 hsnap
  exact popAtDay_length pr o d

theorem output_lengths_witness :
    pr1.Valid ∧
    ((total_susceptible pr1 constOracle).length = pr1.days + 1 ∧
    (total_infected pr1 constOracle).length = pr1.days + 1 ∧
    (total_recovered pr1 constOracle).length = pr1.days + 1 ∧
    (population_history pr1 constOracle).length = pr1.days + 1 ∧
    ∀ snap ∈ population_history pr1 constOracle,
      snap.length = pr1.population_size) :=
  ⟨by norm_num [Params.Valid, pr1],
    output_lengths pr1 constOracle (by norm_num [Params.Valid, pr1])⟩

/-! ### C5 -/

/-- C5: the total recovered series is non-decreasing day over day: once an
agent is Recovered it never leaves that status. -/
theorem recovered_monotone (pr : Params) (o : Oracle) (hv : pr.Valid)
    (d : ℕ) (hd : d < pr.days) :
    (total_recovered pr o).getD d 0 ≤ (total_recovered pr o).getD (d + 1) 0 := by
  rw [total_recovered_getD pr o (by omega), total_recovered_getD pr o (by omega)]
  unfold countStatus
  refine countP_le_of_forall2 ?_ (popAtDay_forall2_succ pr o d)
  intro a b hab hrec
  have hra : a.status = Status.recovered := by simpa using hrec
  have hr := hab.2.2
  rw [hra] at hr
  cases hb : b.status
  · rw [hb] at hr
    exact absurd hr (by decide)
  · rw [hb] at hr
    exact absurd hr (by decide)
  · rfl

theorem recovered_monotone_witness :
    pr1.Valid ∧ 0 < pr1.days ∧
    (total_recovered pr1 constOracle).getD 0 0 ≤
      (total_recovered pr1 constOracle).getD (0 + 1) 0 :=
  ⟨by norm_num [Params.Valid, pr1], by decide,
    recovered_monotone pr1 constOracle (by norm_num [Params.Valid, pr1]) 0
      (by decide)⟩

/-! ### C6 -/

/-- What a fully isolated day can do to one agent: nothing, except that an
Infected agent may become Recovered. -/
def IsoStep (a b : Agent) : Prop :=
  b.vaccinated = a.vaccinated ∧ b.position = a.position ∧
    (b.status = a.status ∨ (a.status = Status.infected ∧ b.status = Status.recovered))

theorem isoStep_refl (a : Agent) : IsoStep a a :=
  ⟨Eq.refl _, Eq.refl _, Or.inl (Eq.refl _)⟩

theorem isoStep_trans {a b c : Agent} (h1 : IsoStep a b) (h2 : IsoStep b c) :
    IsoStep a c := by
  refine ⟨h2.1.trans h1.1, h2.2.1.trans h1.2.1, ?_⟩
  rcases h1.2.2 with hb | ⟨ha, hb⟩
  · rcases h2.2.2 with hc | ⟨hb2, hc⟩
    · exact Or.inl (hc.trans hb)
    · exact Or.inr ⟨hb ▸ hb2, hc⟩
  · rcases h2.2.2 with hc | ⟨hb2, hc⟩
    · exact Or.inr ⟨ha, hc.trans hb⟩
    · exact Or.inr ⟨ha, hc⟩

theorem forall2_iso_trans {l1 l2 l3 : List Agent}
    (h12 : List.Forall₂ IsoStep l1 l2) (h23 : List.Forall₂ IsoStep l2 l3) :
    List.Forall₂ IsoStep l1 l3 :=
  forall2_trans
    (fun (a b c : Agent) (h1 : IsoStep a b) (h2 : IsoStep b c) =>
      isoStep_trans h1 h2) h12 h23

theorem recoverAgent_isoStep (pr : Params) (day i : ℕ) (o : Oracle) (a : Agent) :
    IsoStep a (recoverAgent pr day i o a) := by
  unfold recoverAgent
  split
  next h =>
    split
    · exact ⟨rfl, rfl, Or.inr ⟨h, rfl⟩⟩
    · exact isoStep_refl a
  · exact isoStep_refl a

theorem recoveryPhase_forall2_iso (pr : Params) (day : ℕ) (o : Oracle) :
    ∀ (i : ℕ) (pop : List Agent),
      List.Forall₂ IsoStep pop (recoveryPhase pr day o i pop) := by
  intro i pop
  induction pop generalizing i with
  | nil => exact List.Forall₂.nil
  | cons a rest ih =>
    exact List.Forall₂.cons (recoverAgent_isoStep pr day i o a) (ih (i + 1))

theorem popAtDay_forall2_iso (pr : Params) (o : Oracle)
    (hiso : pr.isolation_rate = 1) (d : ℕ) :
    List.Forall₂ IsoStep (popAtDay pr o 0) (popAtDay pr o d) := by
  induction d with
  | zero => exact forall2_refl isoStep_refl _
  | succ d ih =>
    refine forall2_iso_trans ih ?_
    show List.Forall₂ IsoStep (popAtDay pr o d) (dayStep pr o d (popAtDay pr o d))
    unfold dayStep
    rw [contactPhase_isolated pr hiso]
    exact recoveryPhase_forall2_iso pr d o 0 _

/-- C6: with `isolation_rate = 1` no new infection ever happens: an agent
Susceptible at day 0 is still Susceptible at every day `d`, and the total
infected count at any day never exceeds its day-0 value. -/
theorem full_isolation (pr : Params) (o : Oracle) (hiso : pr.isolation_rate = 1)
    (d i : ℕ) (a0 a : Agent)
    (ha0 : (popAtDay pr o 0).get? i = some a0)
    (hs : a0.status = Status.susceptible)
    (ha : (popAtDay pr o d).get? i = some a) :
    a.status = Status.susceptible ∧
    (total_infected pr o).getD d 0 ≤ (total_infected pr o).getD 0 0 := by
  constructor
  · have h2 := popAtDay_forall2_iso pr o hiso d
    rw [List.forall₂_iff_get] at h2
    obtain ⟨hlen, hget⟩ := h2
    obtain ⟨hia, ha0'⟩ := List.get?_eq_some.1 ha0
    obtain ⟨hib, ha'⟩ := List.get?_eq_some.1 ha
    have hp := hget i hia hib
    rw [ha0', ha'] at hp
    rcases hp.2.2 with h | ⟨h, _⟩
    · rw [h, hs]
    · rw [hs] at h
      exact absurd h (by decide)
  · by_cases hd : d < pr.days + 1
    · rw [total_infected_getD pr o hd, total_infected_getD pr o (Nat.succ_pos _)]
      unfold countStatus
      refine countP_ge_of_forall2 ?_ (popAtDay_forall2_iso pr o hiso d)
      intro x y hxy hy
      have hyI : y.status = Status.infected := by simpa using hy
      rcases hxy.2.2 with h | ⟨h, _⟩
      · have hx : x.status = Status.infected := (h.symm.trans hyI :)
        simp [hx]
      · simp [h]
    · have hlen : (total_infected pr o).length ≤ d := by
        rw [total_infected_length]
        omega
      rw [List.getD_eq_default _ _ hlen]
      exact Nat.zero_le _

theorem initAgent_pr3_one : initAgent pr3 constOracle 1 = agentS1 := by
  unfold initAgent pr3 constOracle agentS1 halfQ
  norm_num

theorem get1_init_pr3 :
    (popAtDay pr3 constOracle 0).get? 1 = some agentS1 := by
  show (initPopulation pr3 constOracle).get? 1 = some agentS1
  rw [initPopulation]
  show some (initAgent pr3 constOracle 1) = some agentS1
  rw [initAgent_pr3_one]

theorem full_isolation_witness :
    pr3.isolation_rate = 1 ∧
    (popAtDay pr3 constOracle 0).get? 1 = some agentS1 ∧
    agentS1.status = Status.susceptible ∧
    (popAtDay pr3 constOracle 1).get? 1 = some agentS1 ∧
    (agentS1.status = Status.susceptible ∧
      (total_infected pr3 constOracle).getD 1 0 ≤
        (total_infected pr3 constOracle).getD 0 0) :=
  ⟨rfl, get1_init_pr3, rfl, by rw [popAtDay_pr3_one]; exact get1_init_pr3,
    full_isolation pr3 constOracle rfl 1 1 agentS1 agentS1 get1_init_pr3 rfl
      (by rw [popAtDay_pr3_one]; exact get1_init_pr3)⟩

/-! ### C7 -/

/-- The parameter record of the spec's scenario property (§8.7). -/
def scenarioParams : Params :=
  { population_size := 100, initial_infected := 5, r0 := 2, recovery_rate := 1/10
    isolation_rate := 1/2, days := 20, vaccination_rate := 7/10
    vaccine_efficacy := 9/10 }

/-- C7: under the scenario parameters, for every random outcome the total
infected series starts at 5, all three series have 21 entries each in
`[0, 100]`, and the three day-0 totals sum to 100. -/
theorem scenario_properties (o : Oracle) :
    (total_infected scenarioParams o).getD 0 0 = 5 ∧
    (total_susceptible scenarioParams o).length = 21 ∧
    (total_infected scenarioParams o).length = 21 ∧
    (total_recovered scenarioParams o).length = 21 ∧
    (total_susceptible scenarioParams o).all
      (fun x => decide (0 ≤ x ∧ x ≤ 100)) = true ∧
    (total_infected scenarioParams o).all
      (fun x => decide (0 ≤ x ∧ x ≤ 100)) = true ∧
    (total_recovered scenarioParams o).all
      (fun x => decide (0 ≤ x ∧ x ≤ 100)) = true ∧
    (total_susceptible scenarioParams o).getD 0 0 +
      (total_infected scenarioParams o).getD 0 0 +
      (total_recovered scenarioParams o).getD 0 0 = 100 := by
  have hbound : ∀ (s : Status),
      ((List.range (scenarioParams.days + 1)).map
          (fun d => countStatus (popAtDay scenarioParams o d) s)).all
        (fun x => decide (0 ≤ x ∧ x ≤ 100)) = true := by
    intro s
    rw [List.all_eq_true]
    intro x hx
    obtain ⟨d, -, rfl⟩ := List.mem_map.1 hx
    simp only [decide_eq_true_eq]
    refine ⟨Nat.zero_le _, ?_⟩
    have h := countStatus_le_length (popAtDay scenarioParams o d) s
    rw [popAtDay_length] at h
    exact h
  refine ⟨?_, ?_, ?_, ?_, ?_, ?_, ?_, ?_⟩
  · rw [total_infected_getD scenarioParams o (by omega)]
    show countStatus (initPopulation scenarioParams o) Status.infected = 5
    rw [countStatus_init_infected]
    rfl
  · rw [total_susceptible_length]
    rfl
  · rw [total_infected_length]
    rfl
  · rw [total_recovered_length]
    rfl
  · rw [total_susceptible_eq]
    exact hbound Status.susceptible
  · rw [total_infected_eq]
    exact hbound Status.infected
  · rw [total_recovered_eq]
    exact hbound Status.recovered
  · rw [total_susceptible_getD scenarioParams o (by omega),
      total_infected_getD scenarioParams o (by omega),
      total_recovered_getD scenarioParams o (by omega),
      countStatus_partition, popAtDay_length]
    rfl

/-! ### C8 -/

/-- An invalid parameter record: `population_size = 0` violates the
`population_size > 0` constraint of the data model. -/
def invalidParams : Params :=
  { population_size := 0, initial_infected := 0, r0 := 2, recovery_rate := 1/2
    isolation_rate := 1/2, days := 3, vaccination_rate := 1/2
    vaccine_efficacy := 1/2 }

/-- C8 counterexample: at an invalid parameter record the engine does not
report an error: the call still returns an ordinary result whose series and
history have the usual `days + 1` length. The source contains no parameter
check and no `ParameterDomainError` at all. -/
theorem no_validation_counterexample :
    ¬ invalidParams.Valid ∧
    (simulate_infection_with_individuals invalidParams constOracle).1.length =
      invalidParams.days + 1 ∧
    (simulate_infection_with_individuals
        invalidParams constOracle).2.2.2.length = invalidParams.days + 1 := by
  refine ⟨fun h => absurd h.1 (lt_irrefl 0), total_susceptible_length _ _, ?_⟩
  show (population_history invalidParams constOracle).length = _
  simp [population_history]

/-- C8 amended: the engine performs no entry validation and silently
computes with invalid parameters rather than reporting a domain error. The
guarantee of a normal, shape-correct return is stated for records with
`r0 ≥ 0`: on that domain `np.random.poisson(R0)` is total and the oracle's
`contactsDraw` natural models its result, so the call always returns three
series and a history of length `days + 1` — including at invalid records
such as `population_size = 0` or rates outside `[0, 1]`. (For `r0 < 0` with
an infected agent present the Poisson draw itself raises numpy's
`ValueError`, outside this oracle model — still not the entry validation or
`ParameterDomainError` the claim describes.) -/
theorem no_validation (pr : Params) (o : Oracle) (hr0 : 0 ≤ pr.r0) :
    (simulate_infection_with_individuals pr o).1.length = pr.days + 1 ∧
    (simulate_infection_with_individuals pr o).2.1.length = pr.days + 1 ∧
    (simulate_infection_with_individuals pr o).2.2.1.length = pr.days + 1 ∧
    (simulate_infection_with_individuals pr o).2.2.2.length = pr.days + 1 := by
  refine ⟨total_susceptible_length pr o, total_infected_length pr o,
    total_recovered_length pr o, ?_⟩
  show (population_history pr o).length = _
  simp [population_history]

theorem no_validation_witness :
    0 ≤ invalidParams.r0 ∧
    ((simulate_infection_with_individuals invalidParams constOracle).1.length =
      invalidParams.days + 1 ∧
    (simulate_infection_with_individuals invalidParams constOracle).2.1.length =
      invalidParams.days + 1 ∧
    (simulate_infection_with_individuals
        invalidParams constOracle).2.2.1.length = invalidParams.days + 1 ∧
    (simulate_infection_with_individuals
        invalidParams constOracle).2.2.2.length = invalidParams.days + 1) :=
  ⟨by norm_num [invalidParams],
    no_validation invalidParams constOracle (by norm_num [invalidParams])⟩

/-! ### C9 -/

/-- C9: positions are fixed at creation: the position recorded for agent `i`
in the day-`d` snapshot equals agent `i`'s position in the day-0 snapshot;
the engine never mutates a position (display jitter happens only in the UI,
outside the engine). -/
theorem position_fixed (pr : Params) (o : Oracle) (d i : ℕ) (hd : d ≤ pr.days)
    (a0 a : Agent)
    (ha0 : ((population_history pr o).getD 0 []).get? i = some a0)
    (ha : ((population_history pr o).getD d []).get? i = some a) :
    a.position = a0.position := by
  have hhist : ∀ e, e < pr.days + 1 →
      (population_history pr o).getD e [] = popAtDay pr o e := by
    intro e he
    unfold population_history
    exact getD_map_range he
  rw [hhist 0 (Nat.succ_pos _)] at ha0
  rw [hhist d (by omega)] at ha
  have h2 := popAtDay_forall2_le pr o (Nat.zero_le d)
  rw [List.forall₂_iff_get] at h2
  obtain ⟨hlen, hget⟩ := h2
  obtain ⟨hia, ha0'⟩ := List.get?_eq_some.1 ha0
  obtain ⟨hib, ha'⟩ := List.get?_eq_some.1 ha
  have hp := hget i hia hib
  rw [ha0', ha'] at hp
  exact hp.2.1

theorem position_fixed_witness :
    1 ≤ pr3.days ∧
    ((population_history pr3 constOracle).getD 0 []).get? 0 = some agentI0 ∧
    ((population_history pr3 constOracle).getD 1 []).get? 0 = some agentI0 ∧
    agentI0.position = agentI0.position := by
  have h0 : ((population_history pr3 constOracle).getD 0 []).get? 0 =
      some agentI0 := by
    show (popAtDay pr3 constOracle 0).get? 0 = some agentI0
    exact get0_init_pr3
  have h1 : ((population_history pr3 constOracle).getD 1 []).get? 0 =
      some agentI0 := by
    show (popAtDay pr3 constOracle 1).get? 0 = some agentI0
    rw [popAtDay_pr3_one]
    exact get0_init_pr3
  exact ⟨by decide, h0, h1,
    position_fixed pr3 constOracle 1 0 (by decide) agentI0 agentI0 h0 h1⟩

/-! ### C10 -/

/-- Modelled from the spec: the six compartment counters of the
compartmental engine (§4.1), which lives in the repository's second,
near-identical source file that is not under src/. -/
structure Compartments where
  sv : ℚ
  su : ℚ
  iv : ℚ
  iu : ℚ
  rv : ℚ
  ru : ℚ

/-- Modelled from the spec: §4.1's initialization — the population and the
initial infected are split into vaccinated/unvaccinated pools proportional
to `vaccination_rate`. -/
def compInit (pr : Params) : Compartments :=
  let nv : ℚ := pr.population_size * pr.vaccination_rate
  let nu : ℚ := pr.population_size - nv
  let iv : ℚ := pr.initial_infected * pr.vaccination_rate
  let iu : ℚ := pr.initial_infected - iv
  ⟨nv - iv, nu - iu, iv, iu, 0, 0⟩

/-- Modelled from the spec: §4.1's per-day update equations, with the `min`
clamp against the susceptible pool. -/
def compStep (pr : Params) (c : Compartments) : Compartments :=
  let niv := min (c.iv * pr.r0 * pr.vaccine_efficacy * (c.sv / pr.population_size)
    * (1 - pr.isolation_rate)) c.sv
  let niu := min (c.iu * pr.r0 * (c.su / pr.population_size)
    * (1 - pr.isolation_rate)) c.su
  let nrv := c.iv * pr.recovery_rate
  let nru := c.iu * pr.recovery_rate
  ⟨c.sv - niv, c.su - niu, c.iv + niv - nrv, c.iu + niu - nru,
    c.rv + nrv, c.ru + nru⟩

/-- Modelled from the spec: the compartment state at day `d`. -/
def compAtDay (pr : Params) : ℕ → Compartments
  | 0 => compInit pr
  | d + 1 => compStep pr (compAtDay pr d)

/-- Modelled from the spec: `simulate_compartmental(params) -> TimeSeries`
(§4.1 with §4.3's aggregation): three day-indexed sequences of totals. -/
def simulate_compartmental (pr : Params) : List ℚ × List ℚ × List ℚ :=
  ((List.range (pr.days + 1)).map (fun d => (compAtDay pr d).sv + (compAtDay pr d).su),
   (List.range (pr.days + 1)).map (fun d => (compAtDay pr d).iv + (compAtDay pr d).iu),
   (List.range (pr.days + 1)).map (fun d => (compAtDay pr d).rv + (compAtDay pr d).ru))

/-- C10: the compartmental engine is deterministic: it consumes no random
source, so two calls with identical parameters return identical output
sequences (the same values in the same order). -/
theorem compartmental_deterministic (p q : Params) (h : p = q) :
    simulate_compartmental p = simulate_compartmental q :=
  congrArg simulate_compartmental h

theorem compartmental_deterministic_witness :
    scenarioParams = scenarioParams ∧
    simulate_compartmental scenarioParams = simulate_compartmental scenarioParams :=
  ⟨rfl, compartmental_deterministic scenarioParams scenarioParams rfl⟩

end FluFighter
